import Mathlib

/-!
Verification development for the file-acquisition utilities of
OrpheusDL-Aria2c (src/utils/utils.py).

The Python module is shallowly embedded: the module-level mutable state
(the cached accelerator probe result), the filesystem, and the outside
world (subprocess outcomes, HTTP responses, fault injection in the
streaming write loop, image decoding) are passed explicitly.  Every
definition follows the source line by line; line numbers in comments
refer to src/utils/utils.py.
-/

set_option autoImplicit false

/-- A Python exception value.  `derivesException` records whether the
class derives from `Exception`; `KeyboardInterrupt` and `SystemExit`
derive only from `BaseException`, so an `except Exception` clause does
not catch them. -/
structure PyExc where
  name : String
  derivesException : Bool
deriving DecidableEq

/-- Result of a Python call: normal return or a propagating exception. -/
inductive PyResult (α : Type) where
  | ok (a : α)
  | raised (e : PyExc)
deriving DecidableEq

/-- The arguments of a PIL `Image.save` call performed by the artwork
post-processing step of `download_file`: target path and format, the
JPEG `quality` option when given, the PNG `compress_level` option when
given, the pixel size of the image being saved, the resampling filter
used by the preceding `resize`, and the color mode at save time. -/
structure SaveCall where
  path : String
  format : String
  quality : Option Nat
  compress_level : Option Nat
  size : Nat × Nat
  resample : String
  mode : String
deriving DecidableEq

/-- Contents of a file on disk: raw bytes (downloads), or the opaque
output of the image encoder (after artwork post-processing). -/
inductive FileData where
  | bytes (bs : List Nat)
  | encoded (c : SaveCall)
deriving DecidableEq

def lookupFile : List (String × FileData) → String → Option FileData
  | [], _ => none
  | kv :: rest, p => if kv.1 = p then some kv.2 else lookupFile rest p

def setFileList : List (String × FileData) → String → FileData → List (String × FileData)
  | [], p, d => [(p, d)]
  | kv :: rest, p, d => if kv.1 = p then (p, d) :: rest else kv :: setFileList rest p d

def removeFileList (l : List (String × FileData)) (p : String) : List (String × FileData) :=
  l.filter (fun kv => decide (kv.1 ≠ p))

/-- Filesystem state: regular files with contents, and the set of
existing directories.  The working directory (named "") always exists. -/
structure FS where
  files : List (String × FileData)
  dirs : List String
deriving DecidableEq

def FS.isfile (fs : FS) (p : String) : Bool :=
  (lookupFile fs.files p).isSome

def FS.existsPath (fs : FS) (p : String) : Bool :=
  fs.isfile p || fs.dirs.contains p

/-- Models `os.path.getsize`; only ever consulted on paths that hold
raw downloaded bytes. -/
def FS.getsize (fs : FS) (p : String) : Nat :=
  match lookupFile fs.files p with
  | some (.bytes bs) => bs.length
  | some (.encoded _) => 1
  | none => 0

def FS.setFile (fs : FS) (p : String) (d : FileData) : FS :=
  { fs with files := setFileList fs.files p d }

/-- Models `os.remove` via `silentremove` (utils.py lines 205-210):
a missing file is not an error. -/
def FS.removeFile (fs : FS) (p : String) : FS :=
  { fs with files := removeFileList fs.files p }

/-- Models `os.makedirs(directory, exist_ok=True)` (line 63). -/
def FS.makedirs (fs : FS) (d : String) : FS :=
  { fs with dirs := if fs.dirs.contains d then fs.dirs else d :: fs.dirs }

/-- Splits a list of characters at every slash. -/
def splitOnSlash : List Char → List (List Char)
  | [] => [[]]
  | c :: rest =>
    let r := splitOnSlash rest
    if c = '/' then [] :: r
    else
      match r with
      | [] => [[c]]
      | h :: t => (c :: h) :: t

def joinSlash : List String → String
  | [] => ""
  | [s] => s
  | s :: rest => s ++ "/" ++ joinSlash rest

/-- Models `os.path.dirname` for the relative slash-separated paths the
tool uses. -/
def dirname (p : String) : String :=
  joinSlash (((splitOnSlash p.data).map String.mk).dropLast)

/-- Models `os.path.basename` for the same class of paths. -/
def basename (p : String) : String :=
  String.mk ((splitOnSlash p.data).getLastD [])

/-- Whether `open(p, "wb")` succeeds: the parent directory exists (the
working directory "" always does) or the file itself already exists
and is truncated in place. -/
def FS.canCreate (fs : FS) (p : String) : Bool :=
  dirname p = "" || fs.dirs.contains (dirname p) || fs.isfile p

/-- Observable side effects of one `download_file` call, in order. -/
inductive Event where
  | probeSpawn
  | aria2cRun (cmd : List String)
  | httpGet (url : String) (headers : List (String × String))
  | makedirsEv (dir : String)
  | openWrite (path : String)
  | removeEv (path : String)
  | postProcessEv (path : String)
deriving DecidableEq

/-- The module-level mutable state of utils.py: the cached value of
`_aria2c_installed` (line 43), `none` while still unprobed. -/
structure GlobalState where
  aria2c_installed : Option Bool
deriving DecidableEq

/-- Outcome of `subprocess.run(["aria2c", "--version"], check=True)`
inside `is_aria2c_installed`: either the process completed with exit
code 0 and the given stdout, or the call raised
(`CalledProcessError` on non-zero exit, `FileNotFoundError` when the
binary is missing). -/
inductive ProbeOutcome where
  | completed (stdout : String)
  | failed
deriving DecidableEq

/-- Outcome of the `subprocess.run(aria2c_command, check=False)` call
(line 91).  `fileLeft` is the content aria2c left at the destination
path, if any. -/
inductive Aria2cOutcome where
  | ran (returncode : Int) (stderr : String) (fileLeft : Option (List Nat))
  | notFound
  | otherError (e : PyExc) (fileLeft : Option (List Nat))
deriving DecidableEq

/-- An HTTP response as seen by the streaming fallback: final status,
optional content-length header, and the body as the chunk sequence
produced by `iter_content(chunk_size=8192)`. -/
structure HttpResponse where
  status : Nat
  contentLength : Option Nat
  chunks : List (List Nat)
deriving DecidableEq

/-- Outcome of `r_session.get` (line 116): a final response, or an
exception raised by the client itself (connection failure after the
retry budget is exhausted). -/
inductive HttpOutcome where
  | resp (r : HttpResponse)
  | raiseExc (e : PyExc)
deriving DecidableEq

/-- A decoded image as seen by PIL: color mode and pixel size. -/
structure PILImage where
  mode : String
  width : Nat
  height : Nat
deriving DecidableEq

/-- Outcome of the PIL work inside the artwork try block (lines
171-184): a successfully decoded image, or an exception somewhere in
open/convert/resize/save. -/
inductive PostOutcome where
  | image (im : PILImage)
  | fail (e : PyExc)
deriving DecidableEq

/-- The outside world for one `download_file` call: probe result,
accelerator behaviour, HTTP behaviour, an optional fault injected
before write-loop iteration `k` of the streaming fallback, and the
image-decoding behaviour of the post-processing step. -/
structure Env where
  probe : ProbeOutcome
  aria2c : Aria2cOutcome
  http : HttpOutcome
  writeFault : Option (Nat × PyExc)
  post : PostOutcome
deriving DecidableEq

/-- Models Python `str.lower` (for the ASCII strings involved). -/
def pyLower (s : String) : String :=
  String.mk (s.data.map Char.toLower)

/-- Whether `pat` occurs as a contiguous substring of `text`
(Python `pat in text`). -/
def containsSub (text pat : List Char) : Bool :=
  match text with
  | [] => pat.isEmpty
  | _ :: rest => List.isPrefixOf pat text || containsSub rest pat

/-- Result of `is_aria2c_installed`: the returned boolean, the updated
module state, and the events performed. -/
structure ProbeRes where
  installed : Bool
  g : GlobalState
  events : List Event
deriving DecidableEq

/-- Embeds `is_aria2c_installed` (utils.py lines 45-53).  The function
declares `global _aria2c_installed`, so its assignments update the
module-level cache. -/
def is_aria2c_installed (g : GlobalState) (probe : ProbeOutcome) : ProbeRes :=
  match g.aria2c_installed with
  | some b => ⟨b, g, []⟩
  | none =>
    match probe with
    | .completed stdout =>
      let b := containsSub (pyLower stdout).data "aria2 version".data
      ⟨b, ⟨some b⟩, [.probeSpawn]⟩
    | .failed => ⟨false, ⟨some false⟩, [.probeSpawn]⟩

/-- The fixed flags of the aria2c invocation (utils.py lines 65-78). -/
def aria2c_base_command (directory filename : String) : List String :=
  ["aria2c", "--dir", directory, "--out", filename,
   "--max-connection-per-server=8", "--min-split-size=1M", "--split=8",
   "--continue=true", "--auto-file-renaming=false", "--console-log-level=warn",
   "--show-console-readout=false", "--summary-interval=0", "--allow-overwrite=true"]

/-- One header argument, from the f-string at line 81. -/
def headerArg (kv : String × String) : String :=
  "--header=" ++ kv.1 ++ ": " ++ kv.2

/-- The full aria2c command line (lines 65-83): fixed flags, one
`--header=name: value` argument per header entry, the URL last. -/
def aria2c_command (directory filename : String)
    (headers : List (String × String)) (url : String) : List String :=
  aria2c_base_command directory filename ++ headers.map headerArg ++ [url]

def applyFileLeft (fs : FS) (p : String) : Option (List Nat) → FS
  | none => fs
  | some bs => fs.setFile p (.bytes bs)

/-- Result of the accelerator attempt (lines 59-111). -/
structure AriaOut where
  aria2c_used : Bool
  result : PyResult Unit
  fs : FS
  g : GlobalState
  events : List Event
deriving DecidableEq

/-- Embeds the accelerator branch of `download_file` (lines 59-111).
Notes kept faithful to the source:
* line 63 creates the parent directories before the run;
* on non-zero exit (lines 94-100) the leftover file is removed only
  when `os.path.getsize` reports 0 bytes;
* the `except FileNotFoundError` handler (lines 105-107) executes
  `_aria2c_installed = False` without a `global` declaration, so the
  assignment binds a function-local name and the module-level cache
  `g` is returned unchanged;
* the `except Exception` handler (lines 108-111) removes any leftover
  file unconditionally; an error that does not derive from `Exception`
  is not caught and propagates. -/
def aria2c_attempt (url file_location : String)
    (headers : List (String × String)) (g : GlobalState) (fs : FS)
    (outcome : Aria2cOutcome) : AriaOut :=
  let directory := dirname file_location
  let filename := basename file_location
  let fs1 := fs.makedirs directory
  let cmd := aria2c_command directory filename headers url
  let ev0 := [Event.makedirsEv directory, Event.aria2cRun cmd]
  match outcome with
  | .ran rc _stderr fileLeft =>
    let fs2 := applyFileLeft fs1 file_location fileLeft
    if rc = 0 then ⟨true, .ok (), fs2, g, ev0⟩
    else
      if fs2.existsPath file_location then
        if fs2.getsize file_location = 0 then
          ⟨false, .ok (), fs2.removeFile file_location, g,
           ev0 ++ [.removeEv file_location]⟩
        else ⟨false, .ok (), fs2, g, ev0⟩
      else ⟨false, .ok (), fs2, g, ev0⟩
  | .notFound => ⟨false, .ok (), fs1, g, ev0⟩
  | .otherError e fileLeft =>
    let fs2 := applyFileLeft fs1 file_location fileLeft
    if e.derivesException then
      if fs2.existsPath file_location then
        ⟨false, .ok (), fs2.removeFile file_location, g,
         ev0 ++ [.removeEv file_location]⟩
      else ⟨false, .ok (), fs2, g, ev0⟩
    else ⟨false, .raised e, fs2, g, ev0⟩

def joinChunks : List (List Nat) → List Nat
  | [] => []
  | c :: rest => c ++ joinChunks rest

/-- Result of the streaming fallback (lines 114-153). -/
structure FallbackOut where
  result : PyResult Unit
  fs : FS
  events : List Event
deriving DecidableEq

/-- Embeds the streaming fallback of `download_file` (lines 114-153).
Notes kept faithful to the source:
* `raise_for_status` (line 117) runs before the cleanup try block, so
  an HTTP error status propagates without touching any existing file;
* `open(file_location, "wb")` (line 124) truncates, writing from
  scratch; it raises `FileNotFoundError` inside the try block when the
  parent directory is missing, in which case the handler finds no file
  to remove and re-raises;
* the write loop appends the chunks in order; an injected fault before
  iteration `k` leaves the first `k` chunks on disk and raises;
* the handler at line 150 is `except Exception`, so it removes the
  partial file and re-raises only for errors deriving from
  `Exception`; anything else (such as `KeyboardInterrupt`) propagates
  with the partial file still in place.
The progress-bar setup (lines 125-145) performs the same writes and
its own setup failures are absorbed by the inner bare `except` at
line 138, so it is not modelled separately. -/
def fallback_attempt (url file_location : String)
    (headers : List (String × String)) (fs : FS) (http : HttpOutcome)
    (writeFault : Option (Nat × PyExc)) : FallbackOut :=
  let ev0 := [Event.httpGet url headers]
  match http with
  | .raiseExc e => ⟨.raised e, fs, ev0⟩
  | .resp r =>
    if 400 ≤ r.status then ⟨.raised ⟨"HTTPError", true⟩, fs, ev0⟩
    else
      if fs.canCreate file_location then
        let fs1 := fs.setFile file_location (.bytes [])
        let ev1 := ev0 ++ [Event.openWrite file_location]
        match writeFault with
        | none =>
          ⟨.ok (), fs1.setFile file_location (.bytes (joinChunks r.chunks)), ev1⟩
        | some (k, e) =>
          if k < r.chunks.length then
            let fs2 := fs1.setFile file_location (.bytes (joinChunks (r.chunks.take k)))
            if e.derivesException then
              if fs2.isfile file_location then
                ⟨.raised e, fs2.removeFile file_location,
                 ev1 ++ [Event.removeEv file_location]⟩
              else ⟨.raised e, fs2, ev1⟩
            else ⟨.raised e, fs2, ev1⟩
          else
            ⟨.ok (), fs1.setFile file_location (.bytes (joinChunks r.chunks)), ev1⟩
      else ⟨.raised ⟨"FileNotFoundError", true⟩, fs, ev0⟩

/-- The artwork settings dictionary; each field is optional because the
source reads every key with `dict.get` and a default. -/
structure ArtworkSettings where
  should_resize : Option Bool
  resolution : Option Nat
  format : Option String
  compression : Option String
deriving DecidableEq

/-- Embeds the body of the artwork try block (utils.py lines 159-184)
on a successfully decoded image, producing the `Image.save` call:
defaults `resolution=1400`, `format="jpeg"`, `compression="low"`;
"jpg" is normalised to "jpeg"; quality 90 for low and 70 for high
compression; palette-mode ("P") images are converted to "RGB"; the
image is resized to (resolution, resolution) with the BICUBIC filter;
JPEG saves with `quality`, PNG always with `compress_level=6`, any
other format with encoder defaults. -/
def process_artwork (file_location : String) (s : ArtworkSettings)
    (im : PILImage) : SaveCall :=
  let new_resolution := s.resolution.getD 1400
  let fmt0 := pyLower (s.format.getD "jpeg")
  let new_format := if fmt0 = "jpg" then "jpeg" else fmt0
  let compression_setting := pyLower (s.compression.getD "low")
  let new_compression_quality := if compression_setting = "high" then 70 else 90
  let im1 : PILImage := if im.mode = "P" then { im with mode := "RGB" } else im
  let im2 : PILImage := { im1 with width := new_resolution, height := new_resolution }
  if new_format = "jpeg" then
    ⟨file_location, new_format, some new_compression_quality, none,
     (im2.width, im2.height), "BICUBIC", im2.mode⟩
  else if new_format = "png" then
    ⟨file_location, new_format, none, some 6,
     (im2.width, im2.height), "BICUBIC", im2.mode⟩
  else
    ⟨file_location, new_format, none, none,
     (im2.width, im2.height), "BICUBIC", im2.mode⟩

/-- Result of the post-processing step (lines 156-188). -/
structure PostOut where
  result : PyResult Unit
  fs : FS
  events : List Event
  saveCall : Option SaveCall
deriving DecidableEq

/-- Embeds the post-processing step of `download_file` (lines
156-188): it runs only when the destination is a file and
`artwork_settings.get("should_resize", False)` holds; on success the
file is replaced in place by the encoder output; an exception deriving
from `Exception` is caught at line 185 and only printed, leaving the
file as it is; an error outside `Exception` propagates. -/
def post_process_step (file_location : String)
    (artwork_settings : Option ArtworkSettings) (post : PostOutcome)
    (fs : FS) : PostOut :=
  match artwork_settings with
  | none => ⟨.ok (), fs, [], none⟩
  | some s =>
    if fs.isfile file_location ∧ s.should_resize.getD false then
      match post with
      | .image im =>
        let call := process_artwork file_location s im
        ⟨.ok (), fs.setFile file_location (.encoded call),
         [Event.postProcessEv file_location], some call⟩
      | .fail e =>
        if e.derivesException then ⟨.ok (), fs, [], none⟩
        else ⟨.raised e, fs, [], none⟩
    else ⟨.ok (), fs, [], none⟩

/-- Result of the transfer phase of `download_file` (lines 59-153). -/
structure PhaseOut where
  result : PyResult Unit
  fs : FS
  g : GlobalState
  events : List Event
deriving DecidableEq

/-- The transfer phase of `download_file` (lines 59-153): probe, then
the accelerator attempt when the probe reports the binary installed,
then the streaming fallback unless the accelerator succeeded. -/
def download_phase (url file_location : String)
    (headers : List (String × String)) (g : GlobalState) (fs : FS)
    (env : Env) : PhaseOut :=
  let pr := is_aria2c_installed g env.probe
  if pr.installed then
    let a := aria2c_attempt url file_location headers pr.g fs env.aria2c
    match a.result with
    | .raised e => ⟨.raised e, a.fs, a.g, pr.events ++ a.events⟩
    | .ok _ =>
      if a.aria2c_used then ⟨.ok (), a.fs, a.g, pr.events ++ a.events⟩
      else
        let fb := fallback_attempt url file_location headers a.fs env.http env.writeFault
        ⟨fb.result, fb.fs, a.g, pr.events ++ a.events ++ fb.events⟩
  else
    let fb := fallback_attempt url file_location headers fs env.http env.writeFault
    ⟨fb.result, fb.fs, pr.g, pr.events ++ fb.events⟩

/-- Complete result of one `download_file` call. -/
structure DFResult where
  result : PyResult Unit
  fs : FS
  g : GlobalState
  events : List Event
  saveCall : Option SaveCall
deriving DecidableEq

/-- Embeds `download_file` (utils.py lines 55-188): the early return
when the destination is already a regular file (lines 56-57), the
transfer phase, and the artwork post-processing step. -/
def download_file (url file_location : String)
    (headers : List (String × String)) (enable_progress_bar : Bool)
    (indent_level : Nat) (artwork_settings : Option ArtworkSettings)
    (g : GlobalState) (fs : FS) (env : Env) : DFResult :=
  if fs.isfile file_location then ⟨.ok (), fs, g, [], none⟩
  else
    let ph := download_phase url file_location headers g fs env
    match ph.result with
    | .raised e => ⟨.raised e, ph.fs, ph.g, ph.events, none⟩
    | .ok _ =>
      let po := post_process_step file_location artwork_settings env.post ph.fs
      ⟨po.result, po.fs, ph.g, ph.events ++ po.events, po.saveCall⟩

/-- The retry policy handed to `urllib3.util.retry.Retry` (line 17). -/
structure RetryPolicy where
  total : Nat
  backoff_factor : ℚ
  status_forcelist : List Nat
deriving DecidableEq

/-- Modelled from urllib3 semantics the source relies on: `Retry`
forces a retry exactly on the statuses listed in `status_forcelist`. -/
def RetryPolicy.retriesOnStatus (p : RetryPolicy) (s : Nat) : Bool :=
  p.status_forcelist.contains s

/-- A `requests.Session` as configured by the source: the mounted
adapters with their retry policies. -/
structure SessionConfig where
  adapters : List (String × RetryPolicy)
deriving DecidableEq

/-- Embeds `create_requests_session` (utils.py lines 15-20). -/
def create_requests_session : SessionConfig :=
  let retries : RetryPolicy := ⟨10, 0.4, [429, 500, 502, 503, 504]⟩
  ⟨[("http://", retries), ("https://", retries)]⟩

/-! ### Basic filesystem lemmas -/

theorem lookupFile_setFileList_self (l : List (String × FileData)) (p : String) (d : FileData) :
    lookupFile (setFileList l p d) p = some d := by
  induction l with
  | nil => simp [setFileList, lookupFile]
  | cons kv rest ih =>
    by_cases h : kv.1 = p
    · simp [setFileList, h, lookupFile]
    · simp [setFileList, h, lookupFile, ih]

theorem lookupFile_removeFileList_self (l : List (String × FileData)) (p : String) :
    lookupFile (removeFileList l p) p = none := by
  unfold removeFileList
  induction l with
  | nil => rfl
  | cons kv rest ih =>
    rw [List.filter_cons]
    by_cases h : kv.1 = p
    · simpa [h] using ih
    · simpa [h, lookupFile] using ih

theorem FS.isfile_setFile_self (fs : FS) (p : String) (d : FileData) :
    (fs.setFile p d).isfile p = true := by
  simp [FS.isfile, FS.setFile, lookupFile_setFileList_self]

theorem FS.isfile_removeFile_self (fs : FS) (p : String) :
    (fs.removeFile p).isfile p = false := by
  simp [FS.isfile, FS.removeFile, lookupFile_removeFileList_self]

theorem FS.isfile_makedirs (fs : FS) (d p : String) :
    (fs.makedirs d).isfile p = fs.isfile p := rfl

/-! ### Per-component lemmas -/

theorem post_process_step_result_ok (loc : String) (aset : Option ArtworkSettings)
    (post : PostOutcome) (fs : FS)
    (hp : ∀ e', post = .fail e' → e'.derivesException = true) :
    (post_process_step loc aset post fs).result = .ok () := by
  unfold post_process_step
  split
  · rfl
  · split
    · cases post with
      | image im => rfl
      | fail e' => simp [hp e' rfl]
    · rfl

theorem fallback_attempt_cleanup (url loc : String) (hs : List (String × String))
    (fs : FS) (http : HttpOutcome) (wf : Option (Nat × PyExc)) (e : PyExc)
    (hnf : fs.isfile loc = false)
    (hw : ∀ k e', wf = some (k, e') → e'.derivesException = true) :
    (fallback_attempt url loc hs fs http wf).result = .raised e →
    (fallback_attempt url loc hs fs http wf).fs.isfile loc = false := by
  unfold fallback_attempt
  split
  · intro _; simpa using hnf
  · split
    · intro _; simpa using hnf
    · split
      · split
        · intro hres; simp at hres
        · split
          · split
            · intro _
              simp [FS.isfile_setFile_self, FS.isfile_removeFile_self]
            · rename_i hnd
              intro _
              exact absurd (hw _ _ rfl) hnd
          · intro hres; simp at hres
      · intro _; simpa using hnf

theorem aria2c_attempt_no_file (url loc : String) (hs : List (String × String))
    (g : GlobalState) (fs : FS) (oc : Aria2cOutcome)
    (hnf : fs.isfile loc = false)
    (hoc : oc = .notFound ∨ ∃ rc st, oc = .ran rc st none) :
    (aria2c_attempt url loc hs g fs oc).fs.isfile loc = false ∧
    (aria2c_attempt url loc hs g fs oc).result = .ok () := by
  rcases hoc with h | ⟨rc, st, h⟩ <;> subst h
  · exact ⟨by simpa [aria2c_attempt, FS.isfile_makedirs] using hnf, rfl⟩
  · unfold aria2c_attempt
    simp only [applyFileLeft]
    constructor
    · split
      · simpa [FS.isfile_makedirs] using hnf
      · split
        · split
          · simp [FS.isfile_removeFile_self]
          · simpa [FS.isfile_makedirs] using hnf
        · simpa [FS.isfile_makedirs] using hnf
    · split
      · rfl
      · split
        · split <;> rfl
        · rfl

theorem download_phase_cleanup (url loc : String) (hs : List (String × String))
    (g : GlobalState) (fs : FS) (env : Env) (e : PyExc)
    (hnf : fs.isfile loc = false)
    (ha : env.aria2c = .notFound ∨ ∃ rc st, env.aria2c = .ran rc st none)
    (hw : ∀ k e', env.writeFault = some (k, e') → e'.derivesException = true)
    (hres : (download_phase url loc hs g fs env).result = .raised e) :
    (download_phase url loc hs g fs env).fs.isfile loc = false := by
  unfold download_phase at hres ⊢
  by_cases hp : (is_aria2c_installed g env.probe).installed
  · simp only [hp, if_true] at hres ⊢
    obtain ⟨hfs, hok⟩ :=
      aria2c_attempt_no_file url loc hs (is_aria2c_installed g env.probe).g fs env.aria2c hnf ha
    rw [hok] at hres ⊢
    simp only at hres ⊢
    by_cases hu : (aria2c_attempt url loc hs (is_aria2c_installed g env.probe).g fs env.aria2c).aria2c_used
    · simp [hu] at hres
    · simp only [hu, Bool.false_eq_true, if_false] at hres ⊢
      exact fallback_attempt_cleanup url loc hs _ env.http env.writeFault e hfs hw hres
  · simp only [hp, Bool.false_eq_true, if_false] at hres ⊢
    exact fallback_attempt_cleanup url loc hs fs env.http env.writeFault e hnf hw hres

theorem download_file_result_of_phase_raised (url loc : String)
    (hs : List (String × String)) (epb : Bool) (il : Nat)
    (aset : Option ArtworkSettings) (g : GlobalState) (fs : FS) (env : Env)
    (e : PyExc) (hnf : fs.isfile loc = false)
    (hr : (download_phase url loc hs g fs env).result = .raised e) :
    download_file url loc hs epb il aset g fs env =
      ⟨.raised e, (download_phase url loc hs g fs env).fs,
       (download_phase url loc hs g fs env).g,
       (download_phase url loc hs g fs env).events, none⟩ := by
  unfold download_file
  simp only [hnf, Bool.false_eq_true, if_false, hr]

theorem download_file_result_of_phase_ok (url loc : String)
    (hs : List (String × String)) (epb : Bool) (il : Nat)
    (aset : Option ArtworkSettings) (g : GlobalState) (fs : FS) (env : Env)
    (hnf : fs.isfile loc = false)
    (hr : (download_phase url loc hs g fs env).result = .ok ()) :
    download_file url loc hs epb il aset g fs env =
      ⟨(post_process_step loc aset env.post (download_phase url loc hs g fs env).fs).result,
       (post_process_step loc aset env.post (download_phase url loc hs g fs env).fs).fs,
       (download_phase url loc hs g fs env).g,
       (download_phase url loc hs g fs env).events ++
         (post_process_step loc aset env.post (download_phase url loc hs g fs env).fs).events,
       (post_process_step loc aset env.post (download_phase url loc hs g fs env).fs).saveCall⟩ := by
  unfold download_file
  simp only [hnf, Bool.false_eq_true, if_false, hr]

/-! ### Event membership lemmas -/

theorem mem_events_probe (g : GlobalState) (pr : ProbeOutcome) (e : Event)
    (he : e ∈ (is_aria2c_installed g pr).events) : e = .probeSpawn := by
  obtain ⟨gi⟩ := g
  cases gi <;> cases pr <;> simp_all [is_aria2c_installed]

theorem mem_events_aria2c (url loc : String) (hs : List (String × String))
    (g : GlobalState) (fs : FS) (oc : Aria2cOutcome) (e : Event)
    (he : e ∈ (aria2c_attempt url loc hs g fs oc).events) :
    e = .makedirsEv (dirname loc) ∨
    e = .aria2cRun (aria2c_command (dirname loc) (basename loc) hs url) ∨
    e = .removeEv loc := by
  unfold aria2c_attempt at he
  cases oc with
  | ran rc st fileLeft =>
    simp only at he
    split at he
    · simp at he; tauto
    · split at he
      · split at he
        · simp at he; tauto
        · simp at he; tauto
      · simp at he; tauto
  | notFound => simp at he; tauto
  | otherError e' fileLeft =>
    simp only at he
    split at he
    · split at he
      · simp at he; tauto
      · simp at he; tauto
    · simp at he; tauto

theorem mem_events_fallback (url loc : String) (hs : List (String × String))
    (fs : FS) (http : HttpOutcome) (wf : Option (Nat × PyExc)) (e : Event)
    (he : e ∈ (fallback_attempt url loc hs fs http wf).events) :
    e = .httpGet url hs ∨ e = .openWrite loc ∨ e = .removeEv loc := by
  unfold fallback_attempt at he
  cases http with
  | raiseExc e' => simp at he; tauto
  | resp r =>
    simp only at he
    split at he
    · simp at he; tauto
    · split at he
      · cases wf with
        | none => simp at he; tauto
        | some ke =>
          obtain ⟨k, e'⟩ := ke
          simp only at he
          split at he
          · split at he
            · split at he
              · simp at he; tauto
              · simp at he; tauto
            · simp at he; tauto
          · simp at he; tauto
      · simp at he; tauto

theorem mem_events_post (loc : String) (aset : Option ArtworkSettings)
    (post : PostOutcome) (fs : FS) (e : Event)
    (he : e ∈ (post_process_step loc aset post fs).events) :
    e = .postProcessEv loc := by
  unfold post_process_step at he
  split at he
  · simp at he
  · split at he
    · split at he
      · simpa using he
      · split at he <;> simp at he
    · simp at he

theorem mem_events_phase (url loc : String) (hs : List (String × String))
    (g : GlobalState) (fs : FS) (env : Env) (e : Event)
    (he : e ∈ (download_phase url loc hs g fs env).events) :
    e = .probeSpawn ∨ e = .makedirsEv (dirname loc) ∨
    e = .aria2cRun (aria2c_command (dirname loc) (basename loc) hs url) ∨
    e = .httpGet url hs ∨ e = .openWrite loc ∨ e = .removeEv loc := by
  unfold download_phase at he
  by_cases hp : (is_aria2c_installed g env.probe).installed
  · simp only [hp, if_true] at he
    rcases hr : (aria2c_attempt url loc hs (is_aria2c_installed g env.probe).g fs env.aria2c).result with _ | e'
    · rw [hr] at he
      simp only at he
      by_cases hu : (aria2c_attempt url loc hs (is_aria2c_installed g env.probe).g fs env.aria2c).aria2c_used
      · simp only [hu, if_true, List.mem_append] at he
        rcases he with he | he
        · exact Or.inl (mem_events_probe _ _ _ he)
        · have := mem_events_aria2c url loc hs _ fs env.aria2c e he; tauto
      · simp only [hu, Bool.false_eq_true, if_false, List.mem_append] at he
        rcases he with (he | he) | he
        · exact Or.inl (mem_events_probe _ _ _ he)
        · have := mem_events_aria2c url loc hs _ fs env.aria2c e he; tauto
        · have := mem_events_fallback url loc hs _ env.http env.writeFault e he; tauto
    · rw [hr] at he
      simp only [List.mem_append] at he
      rcases he with he | he
      · exact Or.inl (mem_events_probe _ _ _ he)
      · have := mem_events_aria2c url loc hs _ fs env.aria2c e he; tauto
  · simp only [hp, Bool.false_eq_true, if_false, List.mem_append] at he
    rcases he with he | he
    · exact Or.inl (mem_events_probe _ _ _ he)
    · have := mem_events_fallback url loc hs _ env.http env.writeFault e he; tauto

theorem mem_events_download_file (url loc : String) (hs : List (String × String))
    (epb : Bool) (il : Nat) (aset : Option ArtworkSettings)
    (g : GlobalState) (fs : FS) (env : Env) (e : Event)
    (he : e ∈ (download_file url loc hs epb il aset g fs env).events) :
    e = .probeSpawn ∨ e = .makedirsEv (dirname loc) ∨
    e = .aria2cRun (aria2c_command (dirname loc) (basename loc) hs url) ∨
    e = .httpGet url hs ∨ e = .openWrite loc ∨ e = .removeEv loc ∨
    e = .postProcessEv loc := by
  unfold download_file at he
  split at he
  · simp at he
  · simp only at he
    rcases hr : (download_phase url loc hs g fs env).result with _ | e'
    · rw [hr] at he
      simp only [List.mem_append] at he
      rcases he with he | he
      · have := mem_events_phase url loc hs g fs env e he; tauto
      · exact Or.inr (Or.inr (Or.inr (Or.inr (Or.inr (Or.inr (mem_events_post _ _ _ _ _ he))))))
    · rw [hr] at he
      simp only at he
      have := mem_events_phase url loc hs g fs env e he; tauto

/-! ### Further structural lemmas used by the claim theorems -/

theorem aria2c_attempt_events_head (url loc : String) (hs : List (String × String))
    (g : GlobalState) (fs : FS) (oc : Aria2cOutcome) :
    (aria2c_attempt url loc hs g fs oc).events.head? =
      some (.makedirsEv (dirname loc)) := by
  unfold aria2c_attempt
  split <;> simp only [] <;> (try split) <;> (try split) <;> (try split) <;> rfl

theorem download_phase_events_head_installed (url loc : String)
    (hs : List (String × String)) (fs : FS) (env : Env) :
    (download_phase url loc hs ⟨some true⟩ fs env).events.head? =
      some (.makedirsEv (dirname loc)) := by
  unfold download_phase
  simp only [show is_aria2c_installed ⟨some true⟩ env.probe = ⟨true, ⟨some true⟩, []⟩ from rfl,
    eq_self_iff_true, if_true]
  have hcons : (aria2c_attempt url loc hs (⟨some true⟩ : GlobalState) fs env.aria2c).events =
      Event.makedirsEv (dirname loc) ::
        (aria2c_attempt url loc hs (⟨some true⟩ : GlobalState) fs env.aria2c).events.tail :=
    List.eq_cons_of_mem_head?
      (by simp [Option.mem_def, aria2c_attempt_events_head url loc hs ⟨some true⟩ fs env.aria2c])
  rcases hr : (aria2c_attempt url loc hs (⟨some true⟩ : GlobalState) fs env.aria2c).result with a | e'
  · simp only [hr]
    split <;> rw [hcons] <;> rfl
  · simp only [hr]
    rw [hcons]
    rfl

theorem download_phase_no_makedirs (url loc : String) (hs : List (String × String))
    (fs : FS) (env : Env) (d : String) :
    Event.makedirsEv d ∉ (download_phase url loc hs ⟨some false⟩ fs env).events := by
  intro hmem
  unfold download_phase at hmem
  simp only [show is_aria2c_installed ⟨some false⟩ env.probe = ⟨false, ⟨some false⟩, []⟩ from rfl,
    Bool.false_eq_true, if_false, List.nil_append] at hmem
  rcases mem_events_fallback url loc hs fs env.http env.writeFault _ hmem with h | h | h <;>
    exact Event.noConfusion h

theorem fallback_attempt_missing_dir (url loc : String) (hs : List (String × String))
    (fs : FS) (r : HttpResponse) (wf : Option (Nat × PyExc))
    (hlt : r.status < 400) (hcc : fs.canCreate loc = false) :
    (fallback_attempt url loc hs fs (.resp r) wf).result =
      .raised ⟨"FileNotFoundError", true⟩ := by
  unfold fallback_attempt
  simp only []
  rw [if_neg (by omega), if_neg (by simp [hcc])]

theorem download_phase_missing_dir (url loc : String) (hs : List (String × String))
    (fs : FS) (env : Env) (r : HttpResponse)
    (hh : env.http = .resp r) (hlt : r.status < 400) (hcc : fs.canCreate loc = false) :
    (download_phase url loc hs ⟨some false⟩ fs env).result =
      .raised ⟨"FileNotFoundError", true⟩ := by
  unfold download_phase
  simp only [show is_aria2c_installed ⟨some false⟩ env.probe = ⟨false, ⟨some false⟩, []⟩ from rfl,
    Bool.false_eq_true, if_false]
  rw [hh]
  exact fallback_attempt_missing_dir url loc hs fs r env.writeFault hlt hcc

/-! ### Concrete runs used by witnesses and counterexamples -/

/-- A run where aria2c exits non-zero leaving a non-empty partial file
and the fallback request then receives HTTP 404. -/
def envAriaPartialThen404 : Env :=
  ⟨.failed, .ran 1 "boom" (some [7]), .resp ⟨404, none, []⟩, none, .fail ⟨"OSError", true⟩⟩

/-- A run where the aria2c binary disappears between the probe and the
invocation, and the streaming fallback succeeds. -/
def envBinaryVanished : Env :=
  ⟨.failed, .notFound, .resp ⟨200, some 3, [[1, 2, 3]]⟩, none, .fail ⟨"OSError", true⟩⟩

/-- A fallback-only run interrupted by Ctrl-C before the second chunk
is written. -/
def envInterrupted : Env :=
  ⟨.failed, .notFound, .resp ⟨200, some 5, [[1, 2, 3], [4, 5]]⟩,
   some (1, ⟨"KeyboardInterrupt", false⟩), .fail ⟨"OSError", true⟩⟩

/-- A fallback-only run whose HTTP request raises after exhausting the
retry budget. -/
def envConnFailed : Env :=
  ⟨.failed, .notFound, .raiseExc ⟨"ConnectionError", true⟩, none, .fail ⟨"OSError", true⟩⟩

/-- A plain successful one-chunk streaming run; post-processing, if
attempted, raises OSError. -/
def envStreamOk : Env :=
  ⟨.failed, .notFound, .resp ⟨200, some 1, [[1]]⟩, none, .fail ⟨"OSError", true⟩⟩

/-- A successful accelerator run. -/
def envAriaOk : Env :=
  ⟨.completed "aria2 version 1.36.0", .ran 0 "" (some [9]),
   .resp ⟨200, some 1, [[1]]⟩, none, .image ⟨"RGB", 1000, 600⟩⟩

/-- A filesystem that already holds the destination file d/f. -/
def fsExisting : FS := ⟨[("d/f", .bytes [1, 2])], ["d"]⟩

/-- Artwork settings asking for a 500 pixel square JPEG at high
compression. -/
def artHigh : ArtworkSettings := ⟨some true, some 500, some "jpeg", some "high"⟩

/-! ### Claim C1 -/

/-- Claim C1, counterexample: with the accelerator exiting non-zero and
leaving the non-empty partial file [7] at the destination, the fallback
request receives a non-retryable 404, raise_for_status raises, and the
failed call leaves the partial file on disk: cleanup is not
unconditional and the destination path exists after the failure. -/
theorem download_file_failure_keeps_nonempty_accelerator_leftover :
    (download_file "u" "d/f" [] false 0 none ⟨some true⟩ ⟨[], ["d"]⟩
        envAriaPartialThen404).result = .raised ⟨"HTTPError", true⟩ ∧
    (download_file "u" "d/f" [] false 0 none ⟨some true⟩ ⟨[], ["d"]⟩
        envAriaPartialThen404).fs.isfile "d/f" = true ∧
    lookupFile (download_file "u" "d/f" [] false 0 none ⟨some true⟩ ⟨[], ["d"]⟩
        envAriaPartialThen404).fs.files "d/f" = some (.bytes [7]) := by
  decide

/-- Claim C1, amended: cleanup does hold on every failure path whenever
the accelerator attempt left no file behind (it either raised
FileNotFoundError, or ran and left nothing) and the injected write-loop
and post-processing errors derive from Exception: then after any failed
call the destination path is not a file.  (The unamended claim fails
because a non-empty partial left by a failed accelerator attempt is not
removed, and survives a non-retryable HTTP status raised by the
fallback request.) -/
theorem download_file_cleanup_when_accelerator_leaves_nothing
    (url loc : String) (hs : List (String × String)) (epb : Bool) (il : Nat)
    (aset : Option ArtworkSettings) (g : GlobalState) (fs : FS) (env : Env) (e : PyExc)
    (hnf : fs.isfile loc = false)
    (ha : env.aria2c = .notFound ∨ ∃ rc st, env.aria2c = .ran rc st none)
    (hw : ∀ k e', env.writeFault = some (k, e') → e'.derivesException = true)
    (hp : ∀ e', env.post = .fail e' → e'.derivesException = true)
    (hres : (download_file url loc hs epb il aset g fs env).result = .raised e) :
    (download_file url loc hs epb il aset g fs env).fs.isfile loc = false := by
  rcases hph : (download_phase url loc hs g fs env).result with a | e'
  · cases a
    rw [download_file_result_of_phase_ok url loc hs epb il aset g fs env hnf hph] at hres
    simp only [post_process_step_result_ok loc aset env.post _ hp] at hres
    exact PyResult.noConfusion hres
  · rw [download_file_result_of_phase_raised url loc hs epb il aset g fs env e' hnf hph]
    exact download_phase_cleanup url loc hs g fs env e' hnf ha hw hph

/-- Claim C1, witness for the amended theorem: a fallback-only run
whose request raises ConnectionError fails and leaves no file. -/
theorem download_file_cleanup_when_accelerator_leaves_nothing_witness :
    (FS.isfile ⟨[], ["d"]⟩ "d/f" = false) ∧
    ((download_file "u" "d/f" [] false 0 none ⟨some true⟩ ⟨[], ["d"]⟩ envConnFailed).result =
      .raised ⟨"ConnectionError", true⟩) ∧
    ((download_file "u" "d/f" [] false 0 none ⟨some true⟩ ⟨[], ["d"]⟩ envConnFailed).fs.isfile
      "d/f" = false) :=
  ⟨by decide, by decide,
   download_file_cleanup_when_accelerator_leaves_nothing "u" "d/f" [] false 0 none
     ⟨some true⟩ ⟨[], ["d"]⟩ envConnFailed ⟨"ConnectionError", true⟩ (by decide)
     (Or.inl rfl) (fun k e' h => by cases h) (fun e' h => by cases h; rfl) (by decide)⟩

/-! ### Claim C2 -/

/-- Claim C2 (code bug): when the aria2c invocation raises
FileNotFoundError, line 107 executes an assignment without a global
declaration, so the module cache stays at available; the probe keeps
reporting the accelerator installed and the next call re-attempts it
instead of going straight to the fallback. -/
theorem download_file_binary_not_found_keeps_cache_and_reattempts :
    ((download_file "u" "d/f" [] false 0 none ⟨some true⟩ ⟨[], ["d"]⟩ envBinaryVanished).g =
      ⟨some true⟩) ∧
    ((is_aria2c_installed
        (download_file "u" "d/f" [] false 0 none ⟨some true⟩ ⟨[], ["d"]⟩ envBinaryVanished).g
        envBinaryVanished.probe).installed = true) ∧
    (Event.aria2cRun (aria2c_command "d" "f2" [] "u") ∈
      (download_file "u" "d/f2" [] false 0 none
        (download_file "u" "d/f" [] false 0 none ⟨some true⟩ ⟨[], ["d"]⟩ envBinaryVanished).g
        (download_file "u" "d/f" [] false 0 none ⟨some true⟩ ⟨[], ["d"]⟩ envBinaryVanished).fs
        envBinaryVanished).events) := by
  decide

/-! ### Claim C3 -/

/-- Claim C3: when the destination path already exists as a regular
file, download_file returns immediately with no events (no network
request, no subprocess), the filesystem unchanged, and no save call. -/
theorem download_file_skips_existing_destination
    (url loc : String) (hs : List (String × String)) (epb : Bool) (il : Nat)
    (aset : Option ArtworkSettings) (g : GlobalState) (fs : FS) (env : Env)
    (h : fs.isfile loc = true) :
    download_file url loc hs epb il aset g fs env = ⟨.ok (), fs, g, [], none⟩ := by
  unfold download_file
  simp [h]

/-- Claim C3, witness. -/
theorem download_file_skips_existing_destination_witness :
    (fsExisting.isfile "d/f" = true) ∧
    download_file "u" "d/f" [] false 0 none ⟨some true⟩ fsExisting envStreamOk =
      ⟨.ok (), fsExisting, ⟨some true⟩, [], none⟩ :=
  ⟨by decide,
   download_file_skips_existing_destination "u" "d/f" [] false 0 none ⟨some true⟩
     fsExisting envStreamOk (by decide)⟩

/-! ### Claim C4 -/

/-- Claim C4 (code bug): an external interruption (KeyboardInterrupt,
which does not derive from Exception) injected before the second chunk
of the write loop propagates out of download_file while the partially
written destination file [1, 2, 3] remains on disk, because the handler
at line 150 is except Exception and cannot catch it. -/
theorem download_file_interrupt_keeps_partial_file :
    ((download_file "u" "d/f" [] false 0 none ⟨none⟩ ⟨[], ["d"]⟩ envInterrupted).result =
      .raised ⟨"KeyboardInterrupt", false⟩) ∧
    (lookupFile (download_file "u" "d/f" [] false 0 none ⟨none⟩ ⟨[], ["d"]⟩
        envInterrupted).fs.files "d/f" = some (.bytes [1, 2, 3])) := by
  decide

/-! ### Claim C5 -/

/-- The retry policy built at line 17 of the source. -/
def fallback_retry_policy : RetryPolicy := ⟨10, 0.4, [429, 500, 502, 503, 504]⟩

/-- Claim C5: the session mounts the same adapter for http and https,
configured with 10 total retries, backoff factor 0.4, and status-based
retry exactly on the set 429, 500, 502, 503, 504 (anything else is not
retried on status). -/
theorem create_requests_session_retry_config :
    create_requests_session =
      ⟨[("http://", fallback_retry_policy), ("https://", fallback_retry_policy)]⟩ ∧
    fallback_retry_policy.total = 10 ∧
    fallback_retry_policy.backoff_factor = 0.4 ∧
    ∀ s : Nat, fallback_retry_policy.retriesOnStatus s = true ↔
      (s = 429 ∨ s = 500 ∨ s = 502 ∨ s = 503 ∨ s = 504) := by
  refine ⟨rfl, rfl, rfl, fun s => ?_⟩
  simp [fallback_retry_policy, RetryPolicy.retriesOnStatus]

/-- Claim C5, witness: 503 is retried, 404 is not. -/
theorem create_requests_session_retry_config_witness :
    fallback_retry_policy.retriesOnStatus 503 = true ∧
    fallback_retry_policy.retriesOnStatus 404 = false := by
  have h := create_requests_session_retry_config
  refine ⟨(h.2.2.2 503).mpr (by decide), ?_⟩
  have h4 := h.2.2.2 404
  simp at h4
  exact h4

/-! ### Claim C6 -/

/-- Claim C6, counterexample: with the accelerator unavailable and the
parent directory missing, the fallback performs its HTTP request and
then fails opening the destination; no makedirs event happens at all,
so parent directories are not created before the fallback writes. -/
theorem download_file_fallback_only_run_creates_no_directories :
    ((download_file "u" "d/f" [] false 0 none ⟨some false⟩ ⟨[], []⟩ envStreamOk).result =
      .raised ⟨"FileNotFoundError", true⟩) ∧
    ((download_file "u" "d/f" [] false 0 none ⟨some false⟩ ⟨[], []⟩ envStreamOk).events =
      [Event.httpGet "u" []]) := by
  decide

/-- Claim C6, amended: parent directories are created before any write
only on the accelerator branch.  When the probe reports the accelerator
installed, the very first event of the call is the makedirs of the
destination directory, so it precedes both transports.  When the probe
reports it unavailable, no makedirs event ever occurs, and a fallback
run against a missing parent directory fails with FileNotFoundError
instead of creating it. -/
theorem download_file_parent_dirs_only_on_accelerator_branch
    (url loc : String) (hs : List (String × String)) (epb : Bool) (il : Nat)
    (aset : Option ArtworkSettings) (fs : FS) (env : Env) (r : HttpResponse)
    (hnf : fs.isfile loc = false) :
    ((download_file url loc hs epb il aset ⟨some true⟩ fs env).events.head? =
      some (.makedirsEv (dirname loc))) ∧
    (∀ d, Event.makedirsEv d ∉
      (download_file url loc hs epb il aset ⟨some false⟩ fs env).events) ∧
    (env.http = .resp r → r.status < 400 → fs.canCreate loc = false →
      (download_file url loc hs epb il aset ⟨some false⟩ fs env).result =
        .raised ⟨"FileNotFoundError", true⟩) := by
  refine ⟨?_, ?_, ?_⟩
  · rcases hph : (download_phase url loc hs ⟨some true⟩ fs env).result with a | e'
    · cases a
      rw [download_file_result_of_phase_ok url loc hs epb il aset ⟨some true⟩ fs env hnf hph]
      have hcons := @List.eq_cons_of_mem_head? Event (Event.makedirsEv (dirname loc))
        (download_phase url loc hs ⟨some true⟩ fs env).events
        (by simp [Option.mem_def, download_phase_events_head_installed url loc hs fs env])
      rw [hcons]
      rfl
    · rw [download_file_result_of_phase_raised url loc hs epb il aset ⟨some true⟩ fs env e' hnf hph]
      exact download_phase_events_head_installed url loc hs fs env
  · intro d hmem
    rcases hph : (download_phase url loc hs ⟨some false⟩ fs env).result with a | e'
    · cases a
      rw [download_file_result_of_phase_ok url loc hs epb il aset ⟨some false⟩ fs env hnf hph] at hmem
      simp only [List.mem_append] at hmem
      rcases hmem with h | h
      · exact download_phase_no_makedirs url loc hs fs env d h
      · exact Event.noConfusion (mem_events_post loc aset env.post _ _ h)
    · rw [download_file_result_of_phase_raised url loc hs epb il aset ⟨some false⟩ fs env e' hnf hph] at hmem
      exact download_phase_no_makedirs url loc hs fs env d hmem
  · intro hh hlt hcc
    have hph := download_phase_missing_dir url loc hs fs env r hh hlt hcc
    rw [download_file_result_of_phase_raised url loc hs epb il aset ⟨some false⟩ fs env _ hnf hph]

/-- Claim C6, witness for the amended theorem. -/
theorem download_file_parent_dirs_only_on_accelerator_branch_witness :
    ((download_file "u" "d/f" [] false 0 none ⟨some true⟩ ⟨[], []⟩ envStreamOk).events.head? =
      some (.makedirsEv "d")) ∧
    (Event.makedirsEv "d" ∉
      (download_file "u" "d/f" [] false 0 none ⟨some false⟩ ⟨[], []⟩ envStreamOk).events) ∧
    ((download_file "u" "d/f" [] false 0 none ⟨some false⟩ ⟨[], []⟩ envStreamOk).result =
      .raised ⟨"FileNotFoundError", true⟩) := by
  have h := download_file_parent_dirs_only_on_accelerator_branch "u" "d/f" [] false 0 none
    ⟨[], []⟩ envStreamOk ⟨200, some 1, [[1]]⟩ (by decide)
  have hd : dirname "d/f" = "d" := by decide
  refine ⟨?_, ?_, h.2.2 rfl (by decide) (by decide)⟩
  · rw [← hd]; exact h.1
  · rw [← hd] at *; exact h.2.1 (dirname "d/f")

/-! ### Claim C7 -/

/-- Claim C7: when the transfer phase succeeds and the artwork step
fails with an error deriving from Exception, download_file still
returns success, the downloaded file is exactly the one the transfer
produced (not deleted or reverted), and no save call happens. -/
theorem download_file_postprocessing_failure_swallowed
    (url loc : String) (hs : List (String × String)) (epb : Bool) (il : Nat)
    (aset : Option ArtworkSettings) (g : GlobalState) (fs : FS) (env : Env) (e : PyExc)
    (hnf : fs.isfile loc = false)
    (hpost : env.post = .fail e) (hder : e.derivesException = true)
    (hok : (download_phase url loc hs g fs env).result = .ok ()) :
    (download_file url loc hs epb il aset g fs env).result = .ok () ∧
    (download_file url loc hs epb il aset g fs env).fs =
      (download_phase url loc hs g fs env).fs ∧
    (download_file url loc hs epb il aset g fs env).saveCall = none := by
  have hps : post_process_step loc aset env.post (download_phase url loc hs g fs env).fs =
      ⟨.ok (), (download_phase url loc hs g fs env).fs, [], none⟩ := by
    rw [hpost]
    unfold post_process_step
    split
    · rfl
    · split
      · simp [hder]
      · rfl
  rw [download_file_result_of_phase_ok url loc hs epb il aset g fs env hnf hok, hps]
  exact ⟨rfl, rfl, rfl⟩

/-- Claim C7, witness: a successful streaming download followed by a
failing artwork step still reports success and keeps the file. -/
theorem download_file_postprocessing_failure_swallowed_witness :
    ((download_phase "u" "d/f" [] ⟨some false⟩ ⟨[], ["d"]⟩ envStreamOk).result = .ok ()) ∧
    ((download_file "u" "d/f" [] false 0 (some artHigh) ⟨some false⟩ ⟨[], ["d"]⟩
        envStreamOk).result = .ok ()) ∧
    ((download_file "u" "d/f" [] false 0 (some artHigh) ⟨some false⟩ ⟨[], ["d"]⟩
        envStreamOk).fs =
      (download_phase "u" "d/f" [] ⟨some false⟩ ⟨[], ["d"]⟩ envStreamOk).fs) ∧
    ((download_file "u" "d/f" [] false 0 (some artHigh) ⟨some false⟩ ⟨[], ["d"]⟩
        envStreamOk).saveCall = none) := by
  have h := download_file_postprocessing_failure_swallowed "u" "d/f" [] false 0
    (some artHigh) ⟨some false⟩ ⟨[], ["d"]⟩ envStreamOk ⟨"OSError", true⟩
    (by decide) rfl rfl (by decide)
  exact ⟨by decide, h.1, h.2.1, h.2.2⟩

/-! ### Claim C8 -/

/-- Claim C8: the post-processor always resizes to the square
(resolution, resolution) with the BICUBIC filter, regardless of the
source size; a palette-mode image is converted to RGB first; the JPEG
target is saved at quality 90 for low compression and 70 for high; the
PNG target is always saved with compress_level 6, independent of the
compression enum; any other format is saved with encoder defaults. -/
theorem process_artwork_square_resize_and_format_rules
    (loc : String) (s : ArtworkSettings) (im : PILImage) :
    ((process_artwork loc s im).size =
      (s.resolution.getD 1400, s.resolution.getD 1400)) ∧
    ((process_artwork loc s im).resample = "BICUBIC") ∧
    (im.mode = "P" → (process_artwork loc s im).mode = "RGB") ∧
    (s.format = some "jpeg" ∧ s.compression = some "low" →
      (process_artwork loc s im).format = "jpeg" ∧
      (process_artwork loc s im).quality = some 90) ∧
    (s.format = some "jpeg" ∧ s.compression = some "high" →
      (process_artwork loc s im).format = "jpeg" ∧
      (process_artwork loc s im).quality = some 70) ∧
    (s.format = some "png" →
      (process_artwork loc s im).compress_level = some 6 ∧
      (process_artwork loc s im).quality = none) ∧
    (pyLower (s.format.getD "jpeg") ≠ "jpg" →
      pyLower (s.format.getD "jpeg") ≠ "jpeg" →
      pyLower (s.format.getD "jpeg") ≠ "png" →
      (process_artwork loc s im).quality = none ∧
      (process_artwork loc s im).compress_level = none) := by
  obtain ⟨sr, res, fmt, comp⟩ := s
  have hjq : pyLower "jpeg" = "jpeg" := by decide
  have hlq : pyLower "low" = "low" := by decide
  have hhq : pyLower "high" = "high" := by decide
  have hpq : pyLower "png" = "png" := by decide
  refine ⟨?_, ?_, ?_, ?_, ?_, ?_, ?_⟩
  · simp only [process_artwork]
    split <;> (try split) <;> (try split) <;> (try split) <;> rfl
  · simp only [process_artwork]
    split <;> (try split) <;> (try split) <;> (try split) <;> rfl
  · intro h
    simp only [process_artwork, h, eq_self_iff_true, if_true]
    split <;> (try split) <;> (try split) <;> (try split) <;> rfl
  · rintro ⟨hf, hc⟩
    subst hf
    subst hc
    simp only [Option.getD_some] at *
    unfold process_artwork
    simp [hjq, hlq]
  · rintro ⟨hf, hc⟩
    subst hf
    subst hc
    unfold process_artwork
    simp [hjq, hhq]
  · intro hf
    subst hf
    unfold process_artwork
    simp [hpq]
  · intro h1 h2 h3
    unfold process_artwork
    simp [h1, h2, h3]

/-- Claim C8, witness: matches the deterministic test of the spec:
resolution 500, jpeg, high compression on a 300 by 700 RGB source gives
a 500 by 500 BICUBIC save at quality 70. -/
theorem process_artwork_square_resize_and_format_rules_witness :
    (process_artwork "a.jpg" artHigh ⟨"RGB", 300, 700⟩).size = (500, 500) ∧
    (process_artwork "a.jpg" artHigh ⟨"RGB", 300, 700⟩).quality = some 70 ∧
    (process_artwork "a.jpg" artHigh ⟨"RGB", 300, 700⟩).format = "jpeg" ∧
    (process_artwork "a.jpg" artHigh ⟨"RGB", 300, 700⟩).resample = "BICUBIC" := by
  have h := process_artwork_square_resize_and_format_rules "a.jpg" artHigh ⟨"RGB", 300, 700⟩
  have h5 := h.2.2.2.2.1 ⟨rfl, rfl⟩
  exact ⟨h.1, h5.2, h5.1, h.2.1⟩

/-! ### Claim C9 -/

/-- Claim C9: in every run, any HTTP GET event carries exactly the
supplied url and header map, and any accelerator invocation uses
exactly the fixed flag list followed by one header argument per entry
of the header map (in order) and the url as the final argument. -/
theorem download_file_header_propagation
    (url loc : String) (hs : List (String × String)) (epb : Bool) (il : Nat)
    (aset : Option ArtworkSettings) (g : GlobalState) (fs : FS) (env : Env) :
    ((hs.map headerArg).length = hs.length) ∧
    (∀ u h, Event.httpGet u h ∈ (download_file url loc hs epb il aset g fs env).events →
      u = url ∧ h = hs) ∧
    (∀ c, Event.aria2cRun c ∈ (download_file url loc hs epb il aset g fs env).events →
      c = aria2c_base_command (dirname loc) (basename loc) ++ hs.map headerArg ++ [url] ∧
      c.getLast? = some url) := by
  refine ⟨List.length_map _ _, ?_, ?_⟩
  · intro u h hmem
    rcases mem_events_download_file url loc hs epb il aset g fs env _ hmem with
      h1 | h1 | h1 | h1 | h1 | h1 | h1
    · exact Event.noConfusion h1
    · exact Event.noConfusion h1
    · exact Event.noConfusion h1
    · injection h1 with hu hh
      exact ⟨hu, hh⟩
    · exact Event.noConfusion h1
    · exact Event.noConfusion h1
    · exact Event.noConfusion h1
  · intro c hmem
    rcases mem_events_download_file url loc hs epb il aset g fs env _ hmem with
      h1 | h1 | h1 | h1 | h1 | h1 | h1
    · exact Event.noConfusion h1
    · exact Event.noConfusion h1
    · injection h1 with hc
      subst hc
      refine ⟨rfl, ?_⟩
      rw [show aria2c_command (dirname loc) (basename loc) hs url =
        (aria2c_base_command (dirname loc) (basename loc) ++ hs.map headerArg) ++ url :: [] from rfl]
      exact (List.getLast?_append_cons _ url []).trans rfl
    · exact Event.noConfusion h1
    · exact Event.noConfusion h1
    · exact Event.noConfusion h1
    · exact Event.noConfusion h1

/-- Claim C9, witness: an Authorization header shows up as one header
argument on a real accelerator invocation, with the url last. -/
theorem download_file_header_propagation_witness :
    (Event.aria2cRun (aria2c_command (dirname "d/f") (basename "d/f")
        [("Authorization", "Bearer X")] "u") ∈
      (download_file "u" "d/f" [("Authorization", "Bearer X")] false 0 none
        ⟨some true⟩ ⟨[], []⟩ envAriaOk).events) ∧
    (aria2c_command (dirname "d/f") (basename "d/f") [("Authorization", "Bearer X")] "u" =
      aria2c_base_command (dirname "d/f") (basename "d/f") ++
        List.map headerArg [("Authorization", "Bearer X")] ++ ["u"]) ∧
    ((aria2c_command (dirname "d/f") (basename "d/f")
        [("Authorization", "Bearer X")] "u").getLast? = some "u") := by
  have hmem : Event.aria2cRun (aria2c_command (dirname "d/f") (basename "d/f")
      [("Authorization", "Bearer X")] "u") ∈
      (download_file "u" "d/f" [("Authorization", "Bearer X")] false 0 none
        ⟨some true⟩ ⟨[], []⟩ envAriaOk).events := by decide
  have h := (download_file_header_propagation "u" "d/f" [("Authorization", "Bearer X")]
    false 0 none ⟨some true⟩ ⟨[], []⟩ envAriaOk).2.2 _ hmem
  exact ⟨hmem, h.1, h.2⟩

/-! ### Claim C10 -/

/-- Claim C10: when the destination already exists as a regular file,
the skip path returns before post-processing: even with shouldResize
set, no save call happens, no postProcess event occurs, and the
pre-existing file is left byte-identical. -/
theorem download_file_existing_destination_never_reencoded
    (url loc : String) (hs : List (String × String)) (epb : Bool) (il : Nat)
    (s : ArtworkSettings) (g : GlobalState) (fs : FS) (env : Env)
    (h : fs.isfile loc = true) :
    (download_file url loc hs epb il (some s) g fs env).saveCall = none ∧
    (download_file url loc hs epb il (some s) g fs env).fs = fs ∧
    ∀ p, Event.postProcessEv p ∉
      (download_file url loc hs epb il (some s) g fs env).events := by
  unfold download_file
  simp [h]

/-- Claim C10, witness: a pre-existing file with resize-requesting
artwork settings stays untouched. -/
theorem download_file_existing_destination_never_reencoded_witness :
    (fsExisting.isfile "d/f" = true) ∧
    ((download_file "u" "d/f" [] false 0 (some artHigh) ⟨some true⟩ fsExisting
        envAriaOk).saveCall = none) ∧
    ((download_file "u" "d/f" [] false 0 (some artHigh) ⟨some true⟩ fsExisting
        envAriaOk).fs = fsExisting) ∧
    (Event.postProcessEv "d/f" ∉
      (download_file "u" "d/f" [] false 0 (some artHigh) ⟨some true⟩ fsExisting
        envAriaOk).events) := by
  have h := download_file_existing_destination_never_reencoded "u" "d/f" [] false 0
    artHigh ⟨some true⟩ fsExisting envAriaOk (by decide)
  exact ⟨by decide, h.1, h.2.1, h.2.2 "d/f"⟩
